import Mathlib

/-!
# sts.go: bootstrapping AWS SDK clients

A shallow embedding of `src/sts.go`.  The file consists of four one-call wrappers around
the AWS SDK for Go v2 (`NewAwsConfig`, `NewS3Client`, `AssumeRole`, `NewDynamoDBClient`)
and a `main` that chains them.

The SDK is external to the repository.  Its entry points are taken as parameters
(`SDK`), and every call the program makes to it, as well as every `fmt.Println`, is
recorded in a trace carried by the `World`, together with the state of the ambient
environment that `config.LoadDefaultConfig` reads.  The program's functions are state
transformers over the `World`; Go's `(value, error)` results are pairs whose second
component is `none` for a nil error.
-/

namespace Sts

/-! ## Values of the Go runtime and of the SDK -/

/-- Values of `context.Context`: the root context and contexts derived from it. -/
inductive Context
  | Background
  | Derived (id : Nat)
deriving DecidableEq, Repr

/-- Values of Go's `error` interface that are not nil: a message (`Error()`), and for an
error that wraps another one the wrapped cause (`Unwrap()`). -/
inductive GoError
  | New (msg : String)
  | Wrap (msg : String) (cause : GoError)
deriving DecidableEq, Repr

/-- The method `Error()`. -/
def GoError.Error : GoError → String
  | .New msg => msg
  | .Wrap msg _ => msg

/-- The result of `errors.Unwrap`: the wrapped cause, or nil. -/
def GoError.Unwrap : GoError → Option GoError
  | .New _ => none
  | .Wrap _ cause => some cause

/-- The verb that renders the error operand of `fmt.Errorf`. -/
inductive Verb
  | v
  | w
deriving DecidableEq, Repr

/-- The call `fmt.Errorf(pre + "%v", err)` or `fmt.Errorf(pre + "%w", err)`: the message
is `pre` followed by the operand rendered through its `Error()` method; only `%w` yields
an error whose `Unwrap` returns the operand, `%v` yields a plain error as `errors.New`
does. -/
def Errorf (pre : String) (verb : Verb) (err : GoError) : GoError :=
  match verb with
  | .v => .New (pre ++ err.Error)
  | .w => .Wrap (pre ++ err.Error) err

/-- Values of `aws.CredentialsProvider`: the nil interface, a provider resolved from the
ambient environment, and `stscreds.AssumeRoleProvider`, which records the options of the
STS client it will call and the role to assume. -/
inductive CredentialsProvider
  | nil
  | ambient (source : String)
  | AssumeRoleProvider (clientRegion : String) (clientCredentials : CredentialsProvider)
      (RoleARN : String)
deriving DecidableEq, Repr

/-- The struct `aws.Config`, restricted to the fields the development refers to. -/
structure Config where
  Region : String
  Credentials : CredentialsProvider
  RetryMaxAttempts : Nat
  AppID : String
deriving DecidableEq, Repr

/-- The zero value `aws.Config{}`. -/
def Config.zero : Config :=
  { Region := "", Credentials := .nil, RetryMaxAttempts := 0, AppID := "" }

/-- Values of `*s3.Client`, by the options the client holds. -/
structure S3Client where
  Region : String
  Credentials : CredentialsProvider
deriving DecidableEq, Repr

/-- Values of `*sts.Client`, by the options the client holds. -/
structure STSClient where
  Region : String
  Credentials : CredentialsProvider
deriving DecidableEq, Repr

/-- Values of `*dynamodb.Client`, by the options the client holds. -/
structure DynamoDBClient where
  Region : String
  Credentials : CredentialsProvider
deriving DecidableEq, Repr

/-- Functional options of `config.LoadDefaultConfig` that the program builds. -/
inductive LoadOption
  | WithCredentialsProvider (creds : CredentialsProvider)
deriving DecidableEq, Repr

/-- Operands of `fmt.Println`. -/
inductive Operand
  | str (s : String)
  | err (e : GoError)
  | s3 (c : S3Client)
  | dynamodb (c : DynamoDBClient)
deriving DecidableEq, Repr

/-- One entry of the trace: a call into the SDK with its arguments, or a call of
`fmt.Println` (which writes its operands on one line). -/
inductive Event
  | LoadDefaultConfig (ctx : Context) (optFns : List LoadOption)
  | s3NewFromConfig (cfg : Config)
  | stsNewFromConfig (cfg : Config)
  | NewAssumeRoleProvider (client : STSClient) (roleARN : String)
  | dynamodbNewFromConfig (cfg : Config)
  | Println (args : List Operand)
deriving DecidableEq, Repr

/-- The entry points of the AWS SDK the program calls, over an ambient environment of
type `σ`.  `config.LoadDefaultConfig` reads the environment (and may change it); the
constructors only build a value from their arguments. -/
structure SDK (σ : Type) where
  LoadDefaultConfig : Context → List LoadOption → σ → Except GoError Config × σ
  s3NewFromConfig : Config → S3Client
  stsNewFromConfig : Config → STSClient
  NewAssumeRoleProvider : STSClient → String → CredentialsProvider
  dynamodbNewFromConfig : Config → DynamoDBClient

/-- The state a run goes through: the ambient environment and the trace so far. -/
structure World (σ : Type) where
  env : σ
  trace : List Event

/-- Programs: state transformers over the world. -/
abbrev Prog (σ : Type) (α : Type) : Type := World σ → α × World σ

variable {σ : Type}

/-- Append an event to the trace. -/
def World.log (w : World σ) (ev : Event) : World σ :=
  { w with trace := w.trace ++ [ev] }

/-! ## Calls into the SDK and the runtime -/

/-- The call `config.LoadDefaultConfig(ctx, optFns...)`. -/
def callLoadDefaultConfig (sdk : SDK σ) (ctx : Context) (optFns : List LoadOption) :
    Prog σ (Except GoError Config) := fun w =>
  ((sdk.LoadDefaultConfig ctx optFns w.env).1,
    { env := (sdk.LoadDefaultConfig ctx optFns w.env).2,
      trace := w.trace ++ [Event.LoadDefaultConfig ctx optFns] })

/-- The call `s3.NewFromConfig(cfg)`. -/
def callS3NewFromConfig (sdk : SDK σ) (cfg : Config) : Prog σ S3Client := fun w =>
  (sdk.s3NewFromConfig cfg, w.log (Event.s3NewFromConfig cfg))

/-- The call `sts.NewFromConfig(cfg)`. -/
def callStsNewFromConfig (sdk : SDK σ) (cfg : Config) : Prog σ STSClient := fun w =>
  (sdk.stsNewFromConfig cfg, w.log (Event.stsNewFromConfig cfg))

/-- The call `stscreds.NewAssumeRoleProvider(client, roleARN)`. -/
def callNewAssumeRoleProvider (sdk : SDK σ) (client : STSClient) (roleARN : String) :
    Prog σ CredentialsProvider := fun w =>
  (sdk.NewAssumeRoleProvider client roleARN, w.log (Event.NewAssumeRoleProvider client roleARN))

/-- The call `dynamodb.NewFromConfig(cfg)`. -/
def callDynamodbNewFromConfig (sdk : SDK σ) (cfg : Config) : Prog σ DynamoDBClient := fun w =>
  (sdk.dynamodbNewFromConfig cfg, w.log (Event.dynamodbNewFromConfig cfg))

/-- The call `fmt.Println(args...)`. -/
def Println (args : List Operand) : Prog σ Unit := fun w =>
  ((), w.log (Event.Println args))

/-! ## The functions of sts.go -/

/-- NewAwsConfig creates and returns a new AWS configuration (sts.go, lines 16-22). -/
def NewAwsConfig (sdk : SDK σ) (ctx : Context) : Prog σ (Config × Option GoError) := fun w =>
  match callLoadDefaultConfig sdk ctx [] w with
  | (.error err, w1) =>
      ((Config.zero, some (Errorf "error loading AWS configuration: " Verb.v err)), w1)
  | (.ok cfg, w1) => ((cfg, none), w1)

/-- NewS3Client creates a new S3 client using the provided AWS configuration (sts.go,
lines 25-27). -/
def NewS3Client (sdk : SDK σ) (cfg : Config) : Prog σ S3Client := fun w =>
  callS3NewFromConfig sdk cfg w

/-- AssumeRole creates a new AWS configuration using the specified role ARN (sts.go,
lines 30-38). -/
def AssumeRole (sdk : SDK σ) (ctx : Context) (cfg : Config) (roleArn : String) :
    Prog σ (Config × Option GoError) := fun w =>
  match callStsNewFromConfig sdk cfg w with
  | (stsClient, w1) =>
    match callNewAssumeRoleProvider sdk stsClient roleArn w1 with
    | (creds, w2) =>
      match callLoadDefaultConfig sdk ctx [LoadOption.WithCredentialsProvider creds] w2 with
      | (.error err, w3) => ((Config.zero, some err), w3)
      | (.ok roleConfig, w3) => ((roleConfig, none), w3)

/-- NewDynamoDBClient creates a new DynamoDB client using the specified AWS configuration
(sts.go, lines 41-43). -/
def NewDynamoDBClient (sdk : SDK σ) (cfg : Config) : Prog σ DynamoDBClient := fun w =>
  callDynamodbNewFromConfig sdk cfg w

/-- The role identifier `main` assumes (sts.go, line 60). -/
def dynamoReadRoleArn : String := "arn:aws:iam::123456789012:role/DynamoReadRole"

/-- The function `main` (sts.go, lines 45-72); the result is the world the run ends in. -/
def main (sdk : SDK σ) : Prog σ Unit := fun w =>
  let ctx := Context.Background
  match NewAwsConfig sdk ctx w with
  | ((_, some err), w1) =>
      Println [.str "Error creating AWS configuration for Lambda\x27s role:", .err err] w1
  | ((cfg, none), w1) =>
    match NewS3Client sdk cfg w1 with
    | (s3Client, w2) =>
      match Println [.str "S3 client created successfully:", .s3 s3Client] w2 with
      | (_, w3) =>
        match AssumeRole sdk ctx cfg dynamoReadRoleArn w3 with
        | ((_, some err), w4) =>
            Println [.str "Error assuming DynamoDB read role:", .err err] w4
        | ((assumedRoleConfig, none), w4) =>
          match NewDynamoDBClient sdk assumedRoleConfig w4 with
          | (dynamoClient, w5) =>
              Println [.str "DynamoDB client created successfully:", .dynamodb dynamoClient] w5

/-- The options `AssumeRole` passes to the loader: the credentials provider built by
`stscreds.NewAssumeRoleProvider` from the STS client of `cfg` and from `roleArn`. -/
def assumeRoleOptFns (sdk : SDK σ) (cfg : Config) (roleArn : String) : List LoadOption :=
  [LoadOption.WithCredentialsProvider
    (sdk.NewAssumeRoleProvider (sdk.stsNewFromConfig cfg) roleArn)]

/-! ## The contracts of the SDK that the specification states

`s3.NewFromConfig`, `dynamodb.NewFromConfig` and `config.LoadDefaultConfig` are code of
the SDK and not of sts.go.  Where a property of the program rests on what they return,
their contract is taken from the specification. -/

/-- Modelled from the spec: the constructor `s3.NewFromConfig`, which is not in sts.go.
Spec, 4.3: "Pure construction, cannot fail given a valid Configuration; binds the client
to exactly one service endpoint resolved from the Configuration's region. No network
call occurs at construction time."  Spec, 3: a client is "a stateless handle bound to
exactly one Configuration", and its "effective permissions equal exactly the permissions
of the Configuration it was constructed from".  So the constructor is a total function of
the configuration alone, with no error result, and the client holds the region and the
credentials of that configuration. -/
def s3.NewFromConfig (cfg : Config) : S3Client :=
  { Region := cfg.Region, Credentials := cfg.Credentials }

/-- Modelled from the spec: the constructor `dynamodb.NewFromConfig`, which is not in
sts.go; the same sentences of the spec (4.3 and 3) as for `s3.NewFromConfig`. -/
def dynamodb.NewFromConfig (cfg : Config) : DynamoDBClient :=
  { Region := cfg.Region, Credentials := cfg.Credentials }

/-- Modelled from the spec: the region contract of `config.LoadDefaultConfig`, which is
not in sts.go.  Spec, 3: the region of a configuration is "sourced from the hosting
environment"; spec, 8: "calling `LoadAmbientConfiguration` twice with the same
environment yields two Configuration values with identical region".  So, with `region`
the region an environment resolves to: every successful load yields the region of the
environment it reads, whatever the context and the options, and a load leaves the region
of the environment as it was. -/
def SDK.LoadsRegion (sdk : SDK σ) (region : σ → String) : Prop :=
  (∀ ctx optFns env c,
      (sdk.LoadDefaultConfig ctx optFns env).1 = .ok c → c.Region = region env) ∧
  (∀ ctx optFns env, region (sdk.LoadDefaultConfig ctx optFns env).2 = region env)

/-! ## A concrete environment

An SDK instance over a small ambient environment, used to evaluate the program on
concrete inputs.  As in the SDK, the loader resolves the region from the environment,
takes the credentials provider from the options when one is given, and does not look
into the provider: `stscreds.NewAssumeRoleProvider` only records its arguments, the
role is contacted when credentials are first retrieved. -/

/-- An ambient environment: the region and credential source it resolves to, and the
faults met by the successive loads (`none`: the load succeeds). -/
structure Ambient where
  Region : String
  Source : String
  faults : List (Option GoError)
deriving DecidableEq, Repr

/-- The configuration the environment resolves to under the given options. -/
def Ambient.resolve (env : Ambient) (optFns : List LoadOption) : Config :=
  optFns.foldl
    (fun c o => match o with
      | .WithCredentialsProvider creds => { c with Credentials := creds })
    { Region := env.Region, Credentials := .ambient env.Source,
      RetryMaxAttempts := 0, AppID := "" }

/-- Results of the loader can be compared. -/
instance : DecidableEq (Except GoError Config)
  | .ok a, .ok b => if h : a = b then isTrue (by rw [h]) else isFalse (by simpa using h)
  | .error a, .error b => if h : a = b then isTrue (by rw [h]) else isFalse (by simpa using h)
  | .ok _, .error _ => isFalse (by simp)
  | .error _, .ok _ => isFalse (by simp)

/-- Loading the default configuration from the environment. -/
def Ambient.load (_ctx : Context) (optFns : List LoadOption) (env : Ambient) :
    Except GoError Config × Ambient :=
  match env.faults with
  | [] => (.ok (env.resolve optFns), env)
  | none :: rest => (.ok (env.resolve optFns), { env with faults := rest })
  | some e :: rest => (.error e, { env with faults := rest })

/-- The SDK over `Ambient`. -/
def demoSDK : SDK Ambient where
  LoadDefaultConfig := Ambient.load
  s3NewFromConfig := s3.NewFromConfig
  stsNewFromConfig := fun cfg => { Region := cfg.Region, Credentials := cfg.Credentials }
  NewAssumeRoleProvider := fun client roleARN =>
    .AssumeRoleProvider client.Region client.Credentials roleARN
  dynamodbNewFromConfig := dynamodb.NewFromConfig

/-- An environment in which every load succeeds. -/
def healthyEnv : Ambient :=
  { Region := "us-east-1", Source := "lambda-execution-role", faults := [] }

/-- An environment in which the first load fails, as when `AWS_PROFILE` names a profile
that the shared configuration files do not define. -/
def missingProfileEnv : Ambient :=
  { Region := "us-east-1", Source := "lambda-execution-role",
    faults := [some (.New "failed to get shared config profile, missing")] }

/-- An environment in which the first load succeeds and the second one fails. -/
def secondLoadFailsEnv : Ambient :=
  { Region := "us-east-1", Source := "lambda-execution-role",
    faults := [none, some (.New "failed to load shared config file")] }

/-- The start of a run in environment `env`: nothing traced yet. -/
def World.start (env : σ) : World σ := { env := env, trace := [] }

/-- The configuration `healthyEnv` resolves to. -/
def healthyConfig : Config :=
  { Region := "us-east-1", Credentials := .ambient "lambda-execution-role",
    RetryMaxAttempts := 0, AppID := "" }

/-- A configuration that is not ambient: the caller has set its region to one the
environment does not resolve to. -/
def overriddenConfig : Config := { healthyConfig with Region := "eu-west-1" }

/-! ## Reading a trace -/

/-- The events that construct a client or a credentials provider: the calls made by
`NewS3Client`, `AssumeRole` and `NewDynamoDBClient` before any loading. -/
def Event.isConstruction : Event → Bool
  | .s3NewFromConfig _ => true
  | .stsNewFromConfig _ => true
  | .NewAssumeRoleProvider _ _ => true
  | .dynamodbNewFromConfig _ => true
  | .LoadDefaultConfig _ _ => false
  | .Println _ => false

/-- The lines printed in a trace, in order, each by the operands of its `Println`. -/
def printed (t : List Event) : List (List Operand) :=
  t.filterMap fun ev => match ev with
    | .Println args => some args
    | _ => none

/-! ## Equations for the wrappers -/

theorem NewAwsConfig_of_error (sdk : SDK σ) (ctx : Context) (w : World σ) (e : GoError)
    (h : (sdk.LoadDefaultConfig ctx [] w.env).1 = .error e) :
    NewAwsConfig sdk ctx w =
      ((Config.zero, some (Errorf "error loading AWS configuration: " Verb.v e)),
        { env := (sdk.LoadDefaultConfig ctx [] w.env).2,
          trace := w.trace ++ [Event.LoadDefaultConfig ctx []] }) := by
  simp [NewAwsConfig, callLoadDefaultConfig, h]

theorem NewAwsConfig_of_ok (sdk : SDK σ) (ctx : Context) (w : World σ) (c : Config)
    (h : (sdk.LoadDefaultConfig ctx [] w.env).1 = .ok c) :
    NewAwsConfig sdk ctx w =
      ((c, none),
        { env := (sdk.LoadDefaultConfig ctx [] w.env).2,
          trace := w.trace ++ [Event.LoadDefaultConfig ctx []] }) := by
  simp [NewAwsConfig, callLoadDefaultConfig, h]

theorem AssumeRole_of_error (sdk : SDK σ) (ctx : Context) (cfg : Config) (roleArn : String)
    (w : World σ) (e : GoError)
    (h : (sdk.LoadDefaultConfig ctx (assumeRoleOptFns sdk cfg roleArn) w.env).1 = .error e) :
    AssumeRole sdk ctx cfg roleArn w =
      ((Config.zero, some e),
        { env := (sdk.LoadDefaultConfig ctx (assumeRoleOptFns sdk cfg roleArn) w.env).2,
          trace := w.trace ++
            [Event.stsNewFromConfig cfg,
             Event.NewAssumeRoleProvider (sdk.stsNewFromConfig cfg) roleArn,
             Event.LoadDefaultConfig ctx (assumeRoleOptFns sdk cfg roleArn)] }) := by
  simp only [assumeRoleOptFns] at h
  simp [AssumeRole, callStsNewFromConfig, callNewAssumeRoleProvider, callLoadDefaultConfig,
    World.log, assumeRoleOptFns, h]

theorem AssumeRole_of_ok (sdk : SDK σ) (ctx : Context) (cfg : Config) (roleArn : String)
    (w : World σ) (c : Config)
    (h : (sdk.LoadDefaultConfig ctx (assumeRoleOptFns sdk cfg roleArn) w.env).1 = .ok c) :
    AssumeRole sdk ctx cfg roleArn w =
      ((c, none),
        { env := (sdk.LoadDefaultConfig ctx (assumeRoleOptFns sdk cfg roleArn) w.env).2,
          trace := w.trace ++
            [Event.stsNewFromConfig cfg,
             Event.NewAssumeRoleProvider (sdk.stsNewFromConfig cfg) roleArn,
             Event.LoadDefaultConfig ctx (assumeRoleOptFns sdk cfg roleArn)] }) := by
  simp only [assumeRoleOptFns] at h
  simp [AssumeRole, callStsNewFromConfig, callNewAssumeRoleProvider, callLoadDefaultConfig,
    World.log, assumeRoleOptFns, h]

/-- The loader either fails or succeeds. -/
theorem load_cases (r : Except GoError Config) : (∃ e, r = .error e) ∨ (∃ c, r = .ok c) := by
  cases r with
  | error e => exact Or.inl ⟨e, rfl⟩
  | ok c => exact Or.inr ⟨c, rfl⟩

/-- A nil error from `NewAwsConfig` means the load succeeded with the returned value. -/
theorem load_ok_of_NewAwsConfig (sdk : SDK σ) (ctx : Context) (w : World σ) (cfg : Config)
    (h : (NewAwsConfig sdk ctx w).1 = (cfg, none)) :
    (sdk.LoadDefaultConfig ctx [] w.env).1 = .ok cfg := by
  rcases load_cases (sdk.LoadDefaultConfig ctx [] w.env).1 with ⟨e, hl⟩ | ⟨c, hl⟩
  · rw [NewAwsConfig_of_error sdk ctx w e hl] at h
    simp at h
  · rw [NewAwsConfig_of_ok sdk ctx w c hl] at h
    simp only [Prod.mk.injEq, and_true] at h
    rw [hl, h]

/-- An error from `NewAwsConfig` is the formatted error of a failed load. -/
theorem load_error_of_NewAwsConfig (sdk : SDK σ) (ctx : Context) (w : World σ) (e : GoError)
    (h : (NewAwsConfig sdk ctx w).1.2 = some e) :
    ∃ e0, (sdk.LoadDefaultConfig ctx [] w.env).1 = .error e0 ∧
      e = Errorf "error loading AWS configuration: " Verb.v e0 := by
  rcases load_cases (sdk.LoadDefaultConfig ctx [] w.env).1 with ⟨e0, hl⟩ | ⟨c, hl⟩
  · rw [NewAwsConfig_of_error sdk ctx w e0 hl] at h
    simp only [Option.some.injEq] at h
    exact ⟨e0, hl, h.symm⟩
  · rw [NewAwsConfig_of_ok sdk ctx w c hl] at h
    simp at h

/-- A nil error from `AssumeRole` means its load succeeded with the returned value. -/
theorem load_ok_of_AssumeRole (sdk : SDK σ) (ctx : Context) (cfg : Config) (roleArn : String)
    (w : World σ) (r : Config) (h : (AssumeRole sdk ctx cfg roleArn w).1 = (r, none)) :
    (sdk.LoadDefaultConfig ctx (assumeRoleOptFns sdk cfg roleArn) w.env).1 = .ok r := by
  rcases load_cases (sdk.LoadDefaultConfig ctx (assumeRoleOptFns sdk cfg roleArn) w.env).1
    with ⟨e, hl⟩ | ⟨c, hl⟩
  · rw [AssumeRole_of_error sdk ctx cfg roleArn w e hl] at h
    simp at h
  · rw [AssumeRole_of_ok sdk ctx cfg roleArn w c hl] at h
    simp only [Prod.mk.injEq, and_true] at h
    rw [hl, h]

/-- An error from `AssumeRole` is the error of its failed load. -/
theorem load_error_of_AssumeRole (sdk : SDK σ) (ctx : Context) (cfg : Config)
    (roleArn : String) (w : World σ) (e : GoError)
    (h : (AssumeRole sdk ctx cfg roleArn w).1.2 = some e) :
    (sdk.LoadDefaultConfig ctx (assumeRoleOptFns sdk cfg roleArn) w.env).1 = .error e := by
  rcases load_cases (sdk.LoadDefaultConfig ctx (assumeRoleOptFns sdk cfg roleArn) w.env).1
    with ⟨e0, hl⟩ | ⟨c, hl⟩
  · rw [AssumeRole_of_error sdk ctx cfg roleArn w e0 hl] at h
    simp only [Option.some.injEq] at h
    rw [hl, h]
  · rw [AssumeRole_of_ok sdk ctx cfg roleArn w c hl] at h
    simp at h

/-- The run of `main` when the first load fails. -/
theorem main_of_load_error (sdk : SDK σ) (w : World σ) (e0 : GoError)
    (h : (sdk.LoadDefaultConfig .Background [] w.env).1 = .error e0) :
    main sdk w = ((),
      { env := (sdk.LoadDefaultConfig .Background [] w.env).2,
        trace := w.trace ++
          [Event.LoadDefaultConfig .Background [],
           Event.Println [.str "Error creating AWS configuration for Lambda\x27s role:",
             .err (Errorf "error loading AWS configuration: " Verb.v e0)]] }) := by
  simp [main, NewAwsConfig_of_error sdk .Background w e0 h, Println, World.log]

/-- The run of `main` when the first load succeeds and the load of `AssumeRole` fails. -/
theorem main_of_load_ok_error (sdk : SDK σ) (w : World σ) (cfg : Config) (e : GoError)
    (h1 : (sdk.LoadDefaultConfig .Background [] w.env).1 = .ok cfg)
    (h2 : (sdk.LoadDefaultConfig .Background (assumeRoleOptFns sdk cfg dynamoReadRoleArn)
            (sdk.LoadDefaultConfig .Background [] w.env).2).1 = .error e) :
    main sdk w = ((),
      { env := (sdk.LoadDefaultConfig .Background (assumeRoleOptFns sdk cfg dynamoReadRoleArn)
            (sdk.LoadDefaultConfig .Background [] w.env).2).2,
        trace := w.trace ++
          [Event.LoadDefaultConfig .Background [],
           Event.s3NewFromConfig cfg,
           Event.Println [.str "S3 client created successfully:", .s3 (sdk.s3NewFromConfig cfg)],
           Event.stsNewFromConfig cfg,
           Event.NewAssumeRoleProvider (sdk.stsNewFromConfig cfg) dynamoReadRoleArn,
           Event.LoadDefaultConfig .Background (assumeRoleOptFns sdk cfg dynamoReadRoleArn),
           Event.Println [.str "Error assuming DynamoDB read role:", .err e]] }) := by
  simp only [main, NewAwsConfig_of_ok sdk .Background w cfg h1, NewS3Client,
    callS3NewFromConfig, Println, World.log]
  rw [AssumeRole_of_error sdk .Background cfg dynamoReadRoleArn _ e h2]
  simp

/-- The run of `main` when both loads succeed. -/
theorem main_of_load_ok_ok (sdk : SDK σ) (w : World σ) (cfg r : Config)
    (h1 : (sdk.LoadDefaultConfig .Background [] w.env).1 = .ok cfg)
    (h2 : (sdk.LoadDefaultConfig .Background (assumeRoleOptFns sdk cfg dynamoReadRoleArn)
            (sdk.LoadDefaultConfig .Background [] w.env).2).1 = .ok r) :
    main sdk w = ((),
      { env := (sdk.LoadDefaultConfig .Background (assumeRoleOptFns sdk cfg dynamoReadRoleArn)
            (sdk.LoadDefaultConfig .Background [] w.env).2).2,
        trace := w.trace ++
          [Event.LoadDefaultConfig .Background [],
           Event.s3NewFromConfig cfg,
           Event.Println [.str "S3 client created successfully:", .s3 (sdk.s3NewFromConfig cfg)],
           Event.stsNewFromConfig cfg,
           Event.NewAssumeRoleProvider (sdk.stsNewFromConfig cfg) dynamoReadRoleArn,
           Event.LoadDefaultConfig .Background (assumeRoleOptFns sdk cfg dynamoReadRoleArn),
           Event.dynamodbNewFromConfig r,
           Event.Println [.str "DynamoDB client created successfully:",
             .dynamodb (sdk.dynamodbNewFromConfig r)]] }) := by
  simp only [main, NewAwsConfig_of_ok sdk .Background w cfg h1, NewS3Client,
    callS3NewFromConfig, Println, World.log]
  rw [AssumeRole_of_ok sdk .Background cfg dynamoReadRoleArn _ r h2]
  simp [NewDynamoDBClient, callDynamodbNewFromConfig, World.log]

/-- The environment `NewAwsConfig` leaves is the one its load left. -/
theorem NewAwsConfig_env (sdk : SDK σ) (ctx : Context) (w : World σ) :
    (NewAwsConfig sdk ctx w).2.env = (sdk.LoadDefaultConfig ctx [] w.env).2 := by
  rcases load_cases (sdk.LoadDefaultConfig ctx [] w.env).1 with ⟨e, h⟩ | ⟨c, h⟩
  · rw [NewAwsConfig_of_error sdk ctx w e h]
  · rw [NewAwsConfig_of_ok sdk ctx w c h]

/-- The options of a load do not change the region the environment resolves to. -/
theorem foldl_options_Region (optFns : List LoadOption) (c : Config) :
    (optFns.foldl
      (fun c o => match o with
        | .WithCredentialsProvider creds => { c with Credentials := creds }) c).Region
      = c.Region := by
  induction optFns generalizing c with
  | nil => rfl
  | cons o rest ih =>
    cases o with
    | WithCredentialsProvider creds => simpa [List.foldl] using ih _

/-- The concrete SDK meets the region contract of the loader. -/
theorem demoSDK_loadsRegion : demoSDK.LoadsRegion Ambient.Region := by
  constructor
  · intro ctx optFns env c h
    have hres : (env.resolve optFns).Region = env.Region := by
      unfold Ambient.resolve
      exact foldl_options_Region optFns _
    simp only [demoSDK, Ambient.load] at h
    split at h
    · simp only [Except.ok.injEq] at h
      rw [← h, hres]
    · simp only [Except.ok.injEq] at h
      rw [← h, hres]
    · simp at h
  · intro ctx optFns env
    simp only [demoSDK, Ambient.load]
    split <;> rfl

/-! ## NewAwsConfig -/

/-- C1: `NewAwsConfig(ctx)` returns an error if and only if the default-configuration
loader fails on `ctx`; when the loader succeeds with `c` the result is exactly `c` and a
nil error; when it fails the configuration returned is the zero value `aws.Config{}`;
and the loader is consulted once, with the caller's `ctx` and no options: that call is
the only event added to the trace, and the environment is the one that call left. -/
theorem NewAwsConfig_contract (sdk : SDK σ) (ctx : Context) (w : World σ) :
    ((NewAwsConfig sdk ctx w).1.2 ≠ none ↔
        ∃ e, (sdk.LoadDefaultConfig ctx [] w.env).1 = .error e) ∧
    (∀ c, (sdk.LoadDefaultConfig ctx [] w.env).1 = .ok c →
        (NewAwsConfig sdk ctx w).1 = (c, none)) ∧
    (∀ e, (sdk.LoadDefaultConfig ctx [] w.env).1 = .error e →
        (NewAwsConfig sdk ctx w).1.1 = Config.zero) ∧
    (NewAwsConfig sdk ctx w).2.trace = w.trace ++ [Event.LoadDefaultConfig ctx []] ∧
    (NewAwsConfig sdk ctx w).2.env = (sdk.LoadDefaultConfig ctx [] w.env).2 := by
  rcases load_cases (sdk.LoadDefaultConfig ctx [] w.env).1 with ⟨e, h⟩ | ⟨c, h⟩
  · simp [NewAwsConfig_of_error sdk ctx w e h, h]
  · simp [NewAwsConfig_of_ok sdk ctx w c h, h]

/-- C1, on concrete environments: in `healthyEnv` the loaded configuration comes back
with a nil error, in `missingProfileEnv` the zero configuration comes back. -/
theorem NewAwsConfig_contract_witness :
    (NewAwsConfig demoSDK .Background (World.start healthyEnv)).1 = (healthyConfig, none) ∧
    (NewAwsConfig demoSDK .Background (World.start missingProfileEnv)).1.1 = Config.zero :=
  ⟨(NewAwsConfig_contract demoSDK .Background (World.start healthyEnv)).2.1
      healthyConfig (by decide),
   (NewAwsConfig_contract demoSDK .Background (World.start missingProfileEnv)).2.2.1
      (.New "failed to get shared config profile, missing") (by decide)⟩

/-- C2, as stated, fails: in `missingProfileEnv` the loader fails with a cause, and
unwrapping the error `NewAwsConfig` returns yields nil, not that cause. -/
theorem NewAwsConfig_unwrap_counterexample :
    (demoSDK.LoadDefaultConfig .Background [] missingProfileEnv).1
        = .error (.New "failed to get shared config profile, missing") ∧
    (NewAwsConfig demoSDK .Background (World.start missingProfileEnv)).1.2
        = some (.New "error loading AWS configuration: failed to get shared config profile, missing") ∧
    ((NewAwsConfig demoSDK .Background (World.start missingProfileEnv)).1.2.bind GoError.Unwrap)
        = none ∧
    ((NewAwsConfig demoSDK .Background (World.start missingProfileEnv)).1.2.bind GoError.Unwrap)
        ≠ some (.New "failed to get shared config profile, missing") := by
  decide

/-- C2, amended: when the loader fails with cause `e`, the error `NewAwsConfig` returns
is a new error that carries the text of `e` after the prefix
"error loading AWS configuration: " (the cause is formatted with `%v`); it does not wrap
`e`: unwrapping it yields nil. -/
theorem NewAwsConfig_error_not_wrapped (sdk : SDK σ) (ctx : Context) (w : World σ)
    (e : GoError) (h : (sdk.LoadDefaultConfig ctx [] w.env).1 = .error e) :
    ∃ err, (NewAwsConfig sdk ctx w).1.2 = some err ∧
      err.Error = "error loading AWS configuration: " ++ e.Error ∧
      err.Unwrap = none := by
  refine ⟨Errorf "error loading AWS configuration: " Verb.v e, ?_, rfl, rfl⟩
  rw [NewAwsConfig_of_error sdk ctx w e h]

/-- C2 amended, on a concrete environment. -/
theorem NewAwsConfig_error_not_wrapped_witness :
    ∃ err, (NewAwsConfig demoSDK .Background (World.start missingProfileEnv)).1.2 = some err ∧
      err.Error = "error loading AWS configuration: " ++
        (GoError.New "failed to get shared config profile, missing").Error ∧
      err.Unwrap = none :=
  NewAwsConfig_error_not_wrapped demoSDK .Background (World.start missingProfileEnv)
    (.New "failed to get shared config profile, missing") (by decide)

/-- C10: when the loader fails with an error whose message is `m`, the message of the
error `NewAwsConfig` returns is "error loading AWS configuration: " followed by `m`;
`AssumeRole` adds no prefix: when its load fails with an error whose message is `m`, the
message of the error it returns is `m`. -/
theorem error_messages (sdk : SDK σ) (ctx : Context) (cfg : Config) (roleArn : String)
    (w w' : World σ) (e e' : GoError) (m : String)
    (h : (sdk.LoadDefaultConfig ctx [] w.env).1 = .error e) (hm : e.Error = m)
    (h' : (sdk.LoadDefaultConfig ctx (assumeRoleOptFns sdk cfg roleArn) w'.env).1 = .error e')
    (hm' : e'.Error = m) :
    (NewAwsConfig sdk ctx w).1.2.map GoError.Error
        = some ("error loading AWS configuration: " ++ m) ∧
    (AssumeRole sdk ctx cfg roleArn w').1.2.map GoError.Error = some m := by
  rw [NewAwsConfig_of_error sdk ctx w e h, AssumeRole_of_error sdk ctx cfg roleArn w' e' h']
  subst hm
  exact ⟨rfl, by rw [Option.map_some', hm']⟩

/-- C10, on a concrete environment in which the load fails. -/
theorem error_messages_witness :
    (NewAwsConfig demoSDK .Background (World.start missingProfileEnv)).1.2.map GoError.Error
        = some ("error loading AWS configuration: " ++ "failed to get shared config profile, missing") ∧
    (AssumeRole demoSDK .Background healthyConfig dynamoReadRoleArn
        (World.start missingProfileEnv)).1.2.map GoError.Error
        = some "failed to get shared config profile, missing" :=
  error_messages demoSDK .Background healthyConfig dynamoReadRoleArn
    (World.start missingProfileEnv) (World.start missingProfileEnv)
    (.New "failed to get shared config profile, missing") (.New "failed to get shared config profile, missing")
    "failed to get shared config profile, missing" (by decide) (by decide) (by decide) (by decide)

/-! ## AssumeRole -/

/-- C3, as stated, fails: with the empty string, and with a string that is not an ARN,
as role identifier, `AssumeRole` returns a nil error and a populated configuration
whose credentials provider holds that identifier. -/
theorem AssumeRole_malformed_counterexample :
    (AssumeRole demoSDK .Background healthyConfig "" (World.start healthyEnv)).1
      = ({ healthyConfig with
            Credentials := .AssumeRoleProvider "us-east-1" (.ambient "lambda-execution-role") "" },
         none) ∧
    (AssumeRole demoSDK .Background healthyConfig "not an arn" (World.start healthyEnv)).1.2
      = none := by
  decide

/-- C3, amended: `AssumeRole` does not inspect the role identifier.  For every `ctx`,
`cfg` and `roleArn`, well-formed or not, it returns a non-nil error exactly when the
configuration loader, given the assume-role provider built for `roleArn`, fails; in
that case the configuration it returns is the zero value. -/
theorem AssumeRole_fails_iff_load_fails (sdk : SDK σ) (ctx : Context) (cfg : Config)
    (roleArn : String) (w : World σ) :
    ((AssumeRole sdk ctx cfg roleArn w).1.2 ≠ none ↔
        ∃ e, (sdk.LoadDefaultConfig ctx (assumeRoleOptFns sdk cfg roleArn) w.env).1 = .error e) ∧
    ((AssumeRole sdk ctx cfg roleArn w).1.2 ≠ none →
        (AssumeRole sdk ctx cfg roleArn w).1.1 = Config.zero) := by
  rcases load_cases (sdk.LoadDefaultConfig ctx (assumeRoleOptFns sdk cfg roleArn) w.env).1
    with ⟨e, h⟩ | ⟨c, h⟩
  · simp [AssumeRole_of_error sdk ctx cfg roleArn w e h, h]
  · simp [AssumeRole_of_ok sdk ctx cfg roleArn w c h, h]

/-- C3 amended, on a concrete environment: the load fails, so `AssumeRole` fails, also
for a well-formed role identifier. -/
theorem AssumeRole_fails_iff_load_fails_witness :
    (AssumeRole demoSDK .Background healthyConfig dynamoReadRoleArn
        (World.start missingProfileEnv)).1.2 ≠ none ∧
    (AssumeRole demoSDK .Background healthyConfig dynamoReadRoleArn
        (World.start missingProfileEnv)).1.1 = Config.zero :=
  ⟨(AssumeRole_fails_iff_load_fails demoSDK .Background healthyConfig dynamoReadRoleArn
      (World.start missingProfileEnv)).1.2 ⟨.New "failed to get shared config profile, missing", by decide⟩,
   (AssumeRole_fails_iff_load_fails demoSDK .Background healthyConfig dynamoReadRoleArn
      (World.start missingProfileEnv)).2 (by decide)⟩

/-- C4: if `AssumeRole(ctx, cfg, roleArn)` returns a non-nil error `e`, the configuration
it returns is the zero value `aws.Config{}` whatever `cfg` is (so it is not `cfg`, unless
`cfg` is itself the zero value), and `e` is exactly the error the configuration loader
produced; if it returns a nil error, the configuration is exactly the one the loader
produced when given the assume-role credentials provider for `roleArn`. -/
theorem AssumeRole_zero_or_loaded (sdk : SDK σ) (ctx : Context) (cfg : Config)
    (roleArn : String) (w : World σ) :
    (∀ e, (AssumeRole sdk ctx cfg roleArn w).1.2 = some e →
        (AssumeRole sdk ctx cfg roleArn w).1.1 = Config.zero ∧
        (cfg ≠ Config.zero → (AssumeRole sdk ctx cfg roleArn w).1.1 ≠ cfg) ∧
        (sdk.LoadDefaultConfig ctx
          [LoadOption.WithCredentialsProvider
            (sdk.NewAssumeRoleProvider (sdk.stsNewFromConfig cfg) roleArn)] w.env).1
          = .error e) ∧
    ((AssumeRole sdk ctx cfg roleArn w).1.2 = none →
        (sdk.LoadDefaultConfig ctx
          [LoadOption.WithCredentialsProvider
            (sdk.NewAssumeRoleProvider (sdk.stsNewFromConfig cfg) roleArn)] w.env).1
          = .ok (AssumeRole sdk ctx cfg roleArn w).1.1) := by
  rcases load_cases (sdk.LoadDefaultConfig ctx (assumeRoleOptFns sdk cfg roleArn) w.env).1
    with ⟨e, h⟩ | ⟨c, h⟩
  · rw [AssumeRole_of_error sdk ctx cfg roleArn w e h]
    simp only [assumeRoleOptFns] at h
    refine ⟨?_, by simp⟩
    intro e1 he1
    simp only [Option.some.injEq] at he1
    subst he1
    exact ⟨rfl, fun hne heq => hne heq.symm, h⟩
  · rw [AssumeRole_of_ok sdk ctx cfg roleArn w c h]
    simp only [assumeRoleOptFns] at h
    exact ⟨by simp, fun _ => h⟩

/-- C4, on concrete environments: a failing load gives the zero configuration, not the
ambient one; a successful load gives the loader's configuration. -/
theorem AssumeRole_zero_or_loaded_witness :
    ((AssumeRole demoSDK .Background healthyConfig dynamoReadRoleArn
        (World.start missingProfileEnv)).1.1 = Config.zero ∧
     (AssumeRole demoSDK .Background healthyConfig dynamoReadRoleArn
        (World.start missingProfileEnv)).1.1 ≠ healthyConfig) ∧
    (demoSDK.LoadDefaultConfig .Background
        [LoadOption.WithCredentialsProvider
          (demoSDK.NewAssumeRoleProvider (demoSDK.stsNewFromConfig healthyConfig)
            dynamoReadRoleArn)] healthyEnv).1
      = .ok (AssumeRole demoSDK .Background healthyConfig dynamoReadRoleArn
          (World.start healthyEnv)).1.1 :=
  ⟨⟨((AssumeRole_zero_or_loaded demoSDK .Background healthyConfig dynamoReadRoleArn
        (World.start missingProfileEnv)).1 (.New "failed to get shared config profile, missing")
        (by decide)).1,
    ((AssumeRole_zero_or_loaded demoSDK .Background healthyConfig dynamoReadRoleArn
        (World.start missingProfileEnv)).1 (.New "failed to get shared config profile, missing")
        (by decide)).2.1 (by decide)⟩,
   (AssumeRole_zero_or_loaded demoSDK .Background healthyConfig dynamoReadRoleArn
      (World.start healthyEnv)).2 (by decide)⟩

/-- C5: for every context `ctx`, every ambient configuration `cfg` (the configuration
`NewAwsConfig` returned in the environment) and every role identifier `roleArn` for
which `AssumeRole(ctx, cfg, roleArn)`, run in that environment or in the one the ambient
load left, succeeds with configuration `r`, the region of `r` equals the region of `cfg`.
`AssumeRole` loads `r` afresh, so the equality rests on the loader's region contract
`SDK.LoadsRegion`. -/
theorem AssumeRole_region (sdk : SDK σ) (region : σ → String) (hsdk : sdk.LoadsRegion region)
    (ctx0 ctx : Context) (env : σ) (cfg r : Config) (roleArn : String) (w : World σ)
    (hamb : (NewAwsConfig sdk ctx0 (World.start env)).1 = (cfg, none))
    (hw : w.env = env ∨ w.env = (NewAwsConfig sdk ctx0 (World.start env)).2.env)
    (h : (AssumeRole sdk ctx cfg roleArn w).1 = (r, none)) :
    r.Region = cfg.Region := by
  have hc := hsdk.1 ctx0 [] env cfg (load_ok_of_NewAwsConfig sdk ctx0 (World.start env) cfg hamb)
  have hr := hsdk.1 ctx (assumeRoleOptFns sdk cfg roleArn) w.env r
    (load_ok_of_AssumeRole sdk ctx cfg roleArn w r h)
  have hreg : region w.env = region env := by
    rcases hw with hw | hw
    · rw [hw]
    · rw [hw, NewAwsConfig_env]
      exact hsdk.2 ctx0 [] env
  rw [hr, hc, hreg]

/-- C5, on a concrete environment: `demoSDK` meets the region contract, `healthyConfig`
is the ambient configuration of `healthyEnv`, and the configuration `AssumeRole` returns
there has its region. -/
theorem AssumeRole_region_witness :
    (AssumeRole demoSDK .Background healthyConfig dynamoReadRoleArn
        (World.start healthyEnv)).1.1.Region = healthyConfig.Region :=
  AssumeRole_region demoSDK Ambient.Region demoSDK_loadsRegion .Background .Background
    healthyEnv healthyConfig
    (AssumeRole demoSDK .Background healthyConfig dynamoReadRoleArn
      (World.start healthyEnv)).1.1
    dynamoReadRoleArn (World.start healthyEnv) (by decide) (Or.inl rfl) (by decide)

/-- The region of the result is not taken from `cfg`: for a configuration that is not
ambient, whose region the caller has set to "eu-west-1" in an environment that resolves
to "us-east-1", `AssumeRole` succeeds and returns a configuration of region
"us-east-1". -/
theorem AssumeRole_region_not_from_cfg :
    (AssumeRole demoSDK .Background overriddenConfig dynamoReadRoleArn
        (World.start healthyEnv)).1.2 = none ∧
    (AssumeRole demoSDK .Background overriddenConfig dynamoReadRoleArn
        (World.start healthyEnv)).1.1.Region = "us-east-1" ∧
    overriddenConfig.Region = "eu-west-1" := by
  decide

/-! ## Client constructors -/

/-- C6: with the SDK constructors as the specification describes them, for every
configuration `cfg`, `NewS3Client(cfg)` and `NewDynamoDBClient(cfg)` return a client (they
have no error result) that is bound to exactly `cfg`: it holds the region and the
credentials of `cfg`, and clients built from two configurations are equal only if these
agree.  Neither loads a configuration, assumes a role or makes another call: the run adds
the one constructor call on `cfg` to the trace, leaves the environment as it was, and is
the same for every loader and every STS entry point the SDK may have. -/
theorem client_constructors (sdk : SDK σ)
    (hs3 : sdk.s3NewFromConfig = s3.NewFromConfig)
    (hdynamodb : sdk.dynamodbNewFromConfig = dynamodb.NewFromConfig)
    (cfg : Config) (w : World σ) :
    ((NewS3Client sdk cfg w).1.Region = cfg.Region ∧
     (NewS3Client sdk cfg w).1.Credentials = cfg.Credentials ∧
     (∀ cfg', (NewS3Client sdk cfg' w).1 = (NewS3Client sdk cfg w).1 ↔
        cfg'.Region = cfg.Region ∧ cfg'.Credentials = cfg.Credentials) ∧
     (NewS3Client sdk cfg w).2.env = w.env ∧
     (NewS3Client sdk cfg w).2.trace = w.trace ++ [Event.s3NewFromConfig cfg] ∧
     (∀ sdk' : SDK σ, sdk'.s3NewFromConfig = s3.NewFromConfig →
        NewS3Client sdk' cfg w = NewS3Client sdk cfg w)) ∧
    ((NewDynamoDBClient sdk cfg w).1.Region = cfg.Region ∧
     (NewDynamoDBClient sdk cfg w).1.Credentials = cfg.Credentials ∧
     (∀ cfg', (NewDynamoDBClient sdk cfg' w).1 = (NewDynamoDBClient sdk cfg w).1 ↔
        cfg'.Region = cfg.Region ∧ cfg'.Credentials = cfg.Credentials) ∧
     (NewDynamoDBClient sdk cfg w).2.env = w.env ∧
     (NewDynamoDBClient sdk cfg w).2.trace = w.trace ++ [Event.dynamodbNewFromConfig cfg] ∧
     (∀ sdk' : SDK σ, sdk'.dynamodbNewFromConfig = dynamodb.NewFromConfig →
        NewDynamoDBClient sdk' cfg w = NewDynamoDBClient sdk cfg w)) := by
  refine ⟨⟨?_, ?_, ?_, ?_, ?_, ?_⟩, ⟨?_, ?_, ?_, ?_, ?_, ?_⟩⟩
  · simp [NewS3Client, callS3NewFromConfig, hs3, s3.NewFromConfig]
  · simp [NewS3Client, callS3NewFromConfig, hs3, s3.NewFromConfig]
  · intro cfg'
    simp [NewS3Client, callS3NewFromConfig, hs3, s3.NewFromConfig]
  · simp [NewS3Client, callS3NewFromConfig, World.log]
  · simp [NewS3Client, callS3NewFromConfig, World.log]
  · intro sdk' h'
    simp [NewS3Client, callS3NewFromConfig, hs3, h']
  · simp [NewDynamoDBClient, callDynamodbNewFromConfig, hdynamodb, dynamodb.NewFromConfig]
  · simp [NewDynamoDBClient, callDynamodbNewFromConfig, hdynamodb, dynamodb.NewFromConfig]
  · intro cfg'
    simp [NewDynamoDBClient, callDynamodbNewFromConfig, hdynamodb, dynamodb.NewFromConfig]
  · simp [NewDynamoDBClient, callDynamodbNewFromConfig, World.log]
  · simp [NewDynamoDBClient, callDynamodbNewFromConfig, World.log]
  · intro sdk' h'
    simp [NewDynamoDBClient, callDynamodbNewFromConfig, hdynamodb, h']

/-- C6, on concrete configurations: the S3 client built from the ambient configuration
holds the ambient credentials, and the DynamoDB client built from the caller's
configuration of region "eu-west-1" is another client than the one built from the
ambient configuration. -/
theorem client_constructors_witness :
    (NewS3Client demoSDK healthyConfig (World.start healthyEnv)).1.Credentials
      = .ambient "lambda-execution-role" ∧
    (NewS3Client demoSDK healthyConfig (World.start healthyEnv)).2.trace
      = [Event.s3NewFromConfig healthyConfig] ∧
    (NewDynamoDBClient demoSDK overriddenConfig (World.start healthyEnv)).1
      ≠ (NewDynamoDBClient demoSDK healthyConfig (World.start healthyEnv)).1 :=
  ⟨(client_constructors demoSDK rfl rfl healthyConfig (World.start healthyEnv)).1.2.1,
   (client_constructors demoSDK rfl rfl healthyConfig (World.start healthyEnv)).1.2.2.2.2.1,
   fun h => absurd
     (((client_constructors demoSDK rfl rfl healthyConfig (World.start healthyEnv)).2.2.2.1
        overriddenConfig).1 h).1 (by decide)⟩

/-! ## main -/

/-- C7: in every environment in which `NewAwsConfig` fails with error `e`, a run of
`main` consists of the one load made by `NewAwsConfig` and of one `Println` of
"Error creating AWS configuration for Lambda's role:" followed by `e`; that is the
only line printed, and no construction event occurs: `NewS3Client`, `AssumeRole` and
`NewDynamoDBClient` are never called. -/
theorem main_config_failure (sdk : SDK σ) (env : σ) (e : GoError)
    (h : (NewAwsConfig sdk .Background (World.start env)).1.2 = some e) :
    (main sdk (World.start env)).2.trace =
      [Event.LoadDefaultConfig .Background [],
       Event.Println [.str "Error creating AWS configuration for Lambda\x27s role:", .err e]] ∧
    printed (main sdk (World.start env)).2.trace =
      [[.str "Error creating AWS configuration for Lambda\x27s role:", .err e]] ∧
    ∀ ev ∈ (main sdk (World.start env)).2.trace, ev.isConstruction = false := by
  obtain ⟨e0, hl, he⟩ := load_error_of_NewAwsConfig sdk .Background (World.start env) e h
  rw [main_of_load_error sdk (World.start env) e0 hl, ← he]
  simp [World.start, printed, Event.isConstruction]

/-- C7, in the environment whose first load fails. -/
theorem main_config_failure_witness :
    (main demoSDK (World.start missingProfileEnv)).2.trace =
      [Event.LoadDefaultConfig .Background [],
       Event.Println [.str "Error creating AWS configuration for Lambda\x27s role:",
         .err (.New "error loading AWS configuration: failed to get shared config profile, missing")]] :=
  (main_config_failure demoSDK missingProfileEnv
    (.New "error loading AWS configuration: failed to get shared config profile, missing") (by decide)).1

/-- C8: in every environment in which `NewAwsConfig` succeeds with `cfg` and `AssumeRole`
then fails with error `e`, the run of `main` ends with the one `Println` of
"Error assuming DynamoDB read role:" followed by `e`: that line is the last event and
the last line printed, the only line before it is the S3 success line, `AssumeRole`
made its one load (no retry), and `dynamodb.NewFromConfig` is never called, on no
configuration. -/
theorem main_assume_failure (sdk : SDK σ) (env : σ) (cfg : Config) (e : GoError)
    (h1 : (NewAwsConfig sdk .Background (World.start env)).1 = (cfg, none))
    (h2 : (AssumeRole sdk .Background cfg dynamoReadRoleArn
            (NewAwsConfig sdk .Background (World.start env)).2).1.2 = some e) :
    (main sdk (World.start env)).2.trace =
      [Event.LoadDefaultConfig .Background [],
       Event.s3NewFromConfig cfg,
       Event.Println [.str "S3 client created successfully:", .s3 (sdk.s3NewFromConfig cfg)],
       Event.stsNewFromConfig cfg,
       Event.NewAssumeRoleProvider (sdk.stsNewFromConfig cfg) dynamoReadRoleArn,
       Event.LoadDefaultConfig .Background (assumeRoleOptFns sdk cfg dynamoReadRoleArn),
       Event.Println [.str "Error assuming DynamoDB read role:", .err e]] ∧
    printed (main sdk (World.start env)).2.trace =
      [[.str "S3 client created successfully:", .s3 (sdk.s3NewFromConfig cfg)],
       [.str "Error assuming DynamoDB read role:", .err e]] ∧
    (∀ c, Event.dynamodbNewFromConfig c ∉ (main sdk (World.start env)).2.trace) ∧
    ((main sdk (World.start env)).2.trace.filter
        (fun ev => decide (ev = Event.stsNewFromConfig cfg))).length = 1 := by
  have hl1 := load_ok_of_NewAwsConfig sdk .Background (World.start env) cfg h1
  have hl2 := load_error_of_AssumeRole sdk .Background cfg dynamoReadRoleArn _ e h2
  rw [NewAwsConfig_env] at hl2
  rw [main_of_load_ok_error sdk (World.start env) cfg e hl1 hl2]
  simp [World.start, printed]

/-- C8, in the environment whose second load fails. -/
theorem main_assume_failure_witness :
    printed (main demoSDK (World.start secondLoadFailsEnv)).2.trace =
      [[.str "S3 client created successfully:", .s3 (demoSDK.s3NewFromConfig healthyConfig)],
       [.str "Error assuming DynamoDB read role:",
        .err (.New "failed to load shared config file")]] :=
  (main_assume_failure demoSDK secondLoadFailsEnv healthyConfig
    (.New "failed to load shared config file") (by decide) (by decide)).2.1

/-- C9: in every environment in which `NewAwsConfig` succeeds with `cfg` and `AssumeRole`
then succeeds with `r`, the run of `main` is the chain resolve, assume, construct: the
S3 client is constructed from `cfg`, `AssumeRole` works on that same `cfg` and on the
role identifier "arn:aws:iam::123456789012:role/DynamoReadRole", the DynamoDB client is
constructed from `r`, and exactly two lines are printed, the S3 success line before the
DynamoDB success line. -/
theorem main_success (sdk : SDK σ) (env : σ) (cfg r : Config)
    (h1 : (NewAwsConfig sdk .Background (World.start env)).1 = (cfg, none))
    (h2 : (AssumeRole sdk .Background cfg dynamoReadRoleArn
            (NewAwsConfig sdk .Background (World.start env)).2).1 = (r, none)) :
    (main sdk (World.start env)).2.trace =
      [Event.LoadDefaultConfig .Background [],
       Event.s3NewFromConfig cfg,
       Event.Println [.str "S3 client created successfully:", .s3 (sdk.s3NewFromConfig cfg)],
       Event.stsNewFromConfig cfg,
       Event.NewAssumeRoleProvider (sdk.stsNewFromConfig cfg)
         "arn:aws:iam::123456789012:role/DynamoReadRole",
       Event.LoadDefaultConfig .Background
         [LoadOption.WithCredentialsProvider
           (sdk.NewAssumeRoleProvider (sdk.stsNewFromConfig cfg)
             "arn:aws:iam::123456789012:role/DynamoReadRole")],
       Event.dynamodbNewFromConfig r,
       Event.Println [.str "DynamoDB client created successfully:",
         .dynamodb (sdk.dynamodbNewFromConfig r)]] ∧
    printed (main sdk (World.start env)).2.trace =
      [[.str "S3 client created successfully:", .s3 (sdk.s3NewFromConfig cfg)],
       [.str "DynamoDB client created successfully:",
         .dynamodb (sdk.dynamodbNewFromConfig r)]] := by
  have hl1 := load_ok_of_NewAwsConfig sdk .Background (World.start env) cfg h1
  have hl2 := load_ok_of_AssumeRole sdk .Background cfg dynamoReadRoleArn _ r h2
  rw [NewAwsConfig_env] at hl2
  rw [main_of_load_ok_ok sdk (World.start env) cfg r hl1 hl2]
  simp [World.start, printed, assumeRoleOptFns, dynamoReadRoleArn]

/-- C9, in the healthy environment: the DynamoDB client is built with the assume-role
provider, the S3 client with the ambient credentials. -/
theorem main_success_witness :
    printed (main demoSDK (World.start healthyEnv)).2.trace =
      [[.str "S3 client created successfully:",
        .s3 { Region := "us-east-1", Credentials := .ambient "lambda-execution-role" }],
       [.str "DynamoDB client created successfully:",
        .dynamodb { Region := "us-east-1",
                    Credentials := .AssumeRoleProvider "us-east-1"
                      (.ambient "lambda-execution-role")
                      "arn:aws:iam::123456789012:role/DynamoReadRole" }]] :=
  (main_success demoSDK healthyEnv healthyConfig
    { healthyConfig with
      Credentials := .AssumeRoleProvider "us-east-1" (.ambient "lambda-execution-role")
        dynamoReadRoleArn }
    (by decide) (by decide)).2

end Sts
